import Mathlib

/-!
Shallow embedding of `MistralAI.py` (MistralAIClient) and verification of its
specification claims.  Pure data flow is modelled directly; the HTTP transport
and the UUID / clock environment are passed in explicitly as values, so each
method becomes a total function from the client state and the environment to
its result together with the list of network requests it issued and the state
the client is left in.
-/

deriving instance DecidableEq for Except

namespace MistralAI

/-- The exception taxonomy of the source, one constructor per exception class,
carrying the message string built at raise time. -/
inductive MistralError where
  | authenticationError (message : String)
  | networkConnectionError (message : String)
  | rateLimitError (message : String)
  | modelUnavailableError (modelName : String) (message : String)
  | inputValidationError (message : String)
deriving DecidableEq

/-- Default message of AuthenticationError. -/
def authFailedMessage : String := "Authentication failed. Check your cookies and chat ID."

/-- Default message of RateLimitError. -/
def rateLimitMessage : String := "API rate limit exceeded. Please try again later."

/-- The ModelType enumeration of the source. -/
inductive ModelType where
  | LARGE_2
  | CODESTRAL
  | NEMO
  | PIXTRAL
  | WEB_SEARCH
deriving DecidableEq

/-- The string value of each ModelType member. -/
def ModelType.value : ModelType → String
  | .LARGE_2 => "mistral-large-2407"
  | .CODESTRAL => "codestral"
  | .NEMO => "mistral-nemo"
  | .PIXTRAL => "pixtral-12b-2409"
  | .WEB_SEARCH => "pandragon"

/-- The default value of the model parameter of chat. -/
def defaultChatModel : ModelType := .LARGE_2

/-- The character class str.isspace recognises, which is exactly what
str.strip() with no argument removes: the ASCII controls 0x09 to 0x0D and
0x1C to 0x1F, the space, next-line 0x85, no-break space 0xA0, and the
Unicode space separators and line/paragraph separators. -/
def pyIsSpace (c : Char) : Bool :=
  (0x09 ≤ c.toNat && c.toNat ≤ 0x0d) ||
  (0x1c ≤ c.toNat && c.toNat ≤ 0x1f) ||
  c.toNat = 0x20 || c.toNat = 0x85 || c.toNat = 0xa0 ||
  c.toNat = 0x1680 ||
  (0x2000 ≤ c.toNat && c.toNat ≤ 0x200a) ||
  c.toNat = 0x2028 || c.toNat = 0x2029 || c.toNat = 0x202f ||
  c.toNat = 0x205f || c.toNat = 0x3000

/-- Embedding of Python str.strip(): remove leading and trailing whitespace. -/
def pyStrip (s : List Char) : List Char :=
  ((s.dropWhile pyIsSpace).reverse.dropWhile pyIsSpace).reverse

/-- Embedding of MistralAIClient._validate_query: an empty or all-whitespace
query, then a query longer than 1000 characters, raise InputValidationError. -/
def validateQuery (query : List Char) : Except MistralError Unit :=
  if query.isEmpty || (pyStrip query).isEmpty then
    .error (.inputValidationError "Query cannot be empty")
  else if query.length > 1000 then
    .error (.inputValidationError "Query is too long. Maximum 1000 characters allowed.")
  else
    .ok ()

/-- The test line.startswith("0:") of the stream-decoding loop. -/
def startsWithMarker (line : List Char) : Bool :=
  match line with
  | '0' :: ':' :: _ => true
  | _ => false

/-- The Python slice line[3:-1]: characters from index 3 up to but excluding
the last character (empty whenever the line has fewer than 5 characters). -/
def extractContent (line : List Char) : List Char :=
  (line.drop 3).dropLast

/-- The decoding loop over response.iter_lines: lines passing
startsWithMarker contribute extractContent, accumulated left to right. -/
def decodeLines (lines : List (List Char)) : List Char :=
  lines.foldl (fun acc line =>
    if startsWithMarker line then acc ++ extractContent line else acc) []

/-- Embedding of .replace with a one-character pattern and empty replacement:
drop every newline character. -/
def removeNewlines (s : List Char) : List Char :=
  s.filter (fun c => c ≠ '\n')

/-- JSON-ish values appearing in the request payloads. -/
inductive JVal where
  | str (s : String)
  | strList (xs : List String)
  | obj (fields : List (String × String))
deriving DecidableEq

/-- A request payload: the ordered key/value pairs of the Python dict. -/
abbrev Payload := List (String × JVal)

/-- A calendar date as produced by datetime.now() at call time. -/
structure Date where
  year : Nat
  month : Nat
  day : Nat
deriving DecidableEq

/-- Decimal digits of n, least significant first. -/
def natToDigitsRev (n : Nat) : List Char :=
  if n < 10 then [Nat.digitChar n]
  else Nat.digitChar (n % 10) :: natToDigitsRev (n / 10)
termination_by n
decreasing_by exact Nat.div_lt_self (by omega) (by omega)

/-- Decimal rendering of a natural number (as Python str / %Y produce). -/
def natToDecimal (n : Nat) : String :=
  String.mk (natToDigitsRev n).reverse

/-- The %m / %d conversions: zero-padded two-digit decimal. -/
def pad2 (n : Nat) : String :=
  if n < 10 then "0" ++ natToDecimal n else natToDecimal n

/-- Embedding of datetime.now().strftime with format %Y-%m-%d. -/
def formatCurrentDate (d : Date) : String :=
  natToDecimal d.year ++ "-" ++ pad2 d.month ++ "-" ++ pad2 d.day

/-- Checks that a character list has the shape YYYY-MM-DD: ten characters,
dashes at indices 4 and 7, decimal digits everywhere else. -/
def dateShape (s : List Char) : Bool :=
  match s with
  | [y1, y2, y3, y4, c1, m1, m2, c2, d1, d2] =>
      [y1, y2, y3, y4, m1, m2, d1, d2].all Char.isDigit && c1 = '-' && c2 = '-'
  | _ => false

/-- The payload dict built by MistralAIClient.chat, in source order.  The
message identifier is the str(uuid.uuid4()) drawn for this call. -/
def chatPayload (chatId messageId : String) (model : ModelType)
    (userQuery : String) : Payload :=
  [("chatId", .str chatId),
   ("messageId", .str messageId),
   ("model", .str model.value),
   ("messageInput", .str userQuery),
   ("mode", .str "append")]

/-- The payload dict built by MistralAIClient.web_search, in source order:
fixed WEB_SEARCH model, the beta-websearch feature flag, and the current date
formatted at call time. -/
def webSearchPayload (chatId messageId query : String) (today : Date) : Payload :=
  [("chatId", .str chatId),
   ("mode", .str "append"),
   ("model", .str ModelType.WEB_SEARCH.value),
   ("messageInput", .str query),
   ("messageId", .str messageId),
   ("features", .strList ["beta-websearch"]),
   ("clientPromptData", .obj [("currentDate", formatCurrentDate today)])]

/-- The client state after a successful __post_init__: the three dataclass
fields plus the prepared _headers dict. -/
structure ClientState where
  cookies : String
  chat_id : String
  print_responses : Bool
  headers : List (String × String)
deriving DecidableEq

/-- Embedding of dataclass construction plus __post_init__: validate the
cookie string, then the chat id, then prepare the Cookie header.  The
function involves no transport at all: construction performs no network
activity. -/
def mkClient (cookies chat_id : String) (print_responses : Bool) :
    Except MistralError ClientState :=
  if cookies.data.isEmpty || (pyStrip cookies.data).isEmpty then
    .error (.inputValidationError "Cookies cannot be empty")
  else if chat_id.data.isEmpty || (pyStrip chat_id.data).isEmpty then
    .error (.inputValidationError "Chat ID cannot be empty")
  else
    .ok { cookies := cookies, chat_id := chat_id,
          print_responses := print_responses,
          headers := [("Cookie", cookies)] }

/-- Outcome of the requests.post call together with the drained stream:
either a status code with the iterated lines, or one of the transport
exceptions caught by the except clauses (Timeout and ConnectionError are
matched before the generic RequestException, as in the source). -/
inductive TransportResult where
  | response (statusCode : Nat) (lines : List (List Char))
  | timeoutError
  | connectionError
  | requestError (cause : String)
deriving DecidableEq

/-- The status-code dispatch and stream decoding shared by chat and
web_search: 401, 404, 500 raise AuthenticationError, 429 raises
RateLimitError, any other non-200 raises NetworkConnectionError with the
status code rendered into the message, and 200 decodes the stream and strips
newlines. -/
def handleResponse (statusCode : Nat) (lines : List (List Char)) :
    Except MistralError String :=
  if statusCode = 401 then .error (.authenticationError authFailedMessage)
  else if statusCode = 404 then .error (.authenticationError authFailedMessage)
  else if statusCode = 500 then .error (.authenticationError authFailedMessage)
  else if statusCode = 429 then .error (.rateLimitError rateLimitMessage)
  else if statusCode ≠ 200 then
    .error (.networkConnectionError ("Unexpected error: " ++ natToDecimal statusCode))
  else
    .ok (String.mk (removeNewlines (decodeLines lines)))

/-- The except clauses of chat and web_search: Timeout, ConnectionError and
the generic RequestException are normalised to NetworkConnectionError with
cause-specific messages; a response is handled by handleResponse. -/
def handleTransport (t : TransportResult) : Except MistralError String :=
  match t with
  | .response statusCode lines => handleResponse statusCode lines
  | .timeoutError => .error (.networkConnectionError "Request timed out")
  | .connectionError => .error (.networkConnectionError "Could not connect to Mistral AI")
  | .requestError cause => .error (.networkConnectionError ("Network error: " ++ cause))

/-- Embedding of MistralAIClient.chat.  Returns the result, the list of
network requests issued (their payloads), and the client state after the
call; the method body never assigns to self, so the state out is the state
in.  Validation failure returns before any request is issued. -/
def chat (client : ClientState) (user_query : String) (model : ModelType)
    (messageId : String) (transport : TransportResult) :
    Except MistralError String × List Payload × ClientState :=
  match validateQuery user_query.data with
  | .error e => (.error e, [], client)
  | .ok _ =>
      (handleTransport transport,
       [chatPayload client.chat_id messageId model user_query], client)

/-- Embedding of MistralAIClient.web_search, analogous to chat; today is the
date read from the clock at call time. -/
def web_search (client : ClientState) (query : String) (messageId : String)
    (today : Date) (transport : TransportResult) :
    Except MistralError String × List Payload × ClientState :=
  match validateQuery query.data with
  | .error e => (.error e, [], client)
  | .ok _ =>
      (handleTransport transport,
       [webSearchPayload client.chat_id messageId query today], client)

/-- The fragment the specification text prescribes for a content line:
characters from index 2 up to but excluding the last character. -/
def specClaimedFragment (line : List Char) : List Char :=
  (line.drop 2).dropLast

/-- The mocked stream of the specification, with the third line holding the
two-character escape backslash-n literally. -/
def mockStreamEscaped : List (List Char) :=
  ["x:ignored".data, "0:\"Hel\"".data, "0:\"lo\\n\"".data,
   "0:\"Wor\"".data, "0:\"ld\"".data]

/-- The same mocked stream with an actual newline character in the third
line in place of the escape. -/
def mockStreamNewline : List (List Char) :=
  ["x:ignored".data, "0:\"Hel\"".data, "0:\"lo\n\"".data,
   "0:\"Wor\"".data, "0:\"ld\"".data]

/-- A concrete valid client state, used to instantiate theorems. -/
def sampleClient : ClientState :=
  { cookies := "cookie=abc", chat_id := "chat-1", print_responses := true,
    headers := [("Cookie", "cookie=abc")] }

/-- A concrete date, used to instantiate theorems. -/
def sampleDate : Date := { year := 2026, month := 10, day := 12 }

/-- Generalisation of the decoding fold over its accumulator. -/
lemma decodeLines_go (lines : List (List Char)) (acc : List Char) :
    lines.foldl (fun acc line =>
        if startsWithMarker line then acc ++ extractContent line else acc) acc
      = acc ++ ((lines.filter startsWithMarker).map extractContent).flatten := by
  induction lines generalizing acc with
  | nil => simp
  | cons l t ih =>
      simp only [List.foldl_cons, List.filter_cons]
      by_cases h : startsWithMarker l
      · rw [if_pos h, ih]; simp [h]
      · rw [if_neg h, ih]; simp [h]

/-- The decoding fold equals: keep the marker lines, strip each, concatenate. -/
lemma decodeLines_spec (lines : List (List Char)) :
    decodeLines lines
      = ((lines.filter startsWithMarker).map extractContent).flatten := by
  unfold decodeLines
  rw [decodeLines_go]
  simp

/-- pyStrip yields the empty list exactly on all-whitespace input. -/
lemma pyStrip_eq_nil_iff (s : List Char) :
    pyStrip s = [] ↔ ∀ c ∈ s, pyIsSpace c = true := by
  unfold pyStrip
  rw [List.reverse_eq_nil_iff, List.dropWhile_eq_nil_iff]
  constructor
  · intro h c hc
    rw [← List.takeWhile_append_dropWhile pyIsSpace s] at hc
    rcases List.mem_append.mp hc with hc | hc
    · exact List.mem_takeWhile_imp hc
    · exact h c (List.mem_reverse.mpr hc)
  · intro h x hx
    refine h x ?_
    rw [← List.takeWhile_append_dropWhile pyIsSpace s]
    exact List.mem_append_right _ (List.mem_reverse.mp hx)

/-- Characterisation of the queries _validate_query rejects. -/
lemma validateQuery_error_iff (q : List Char) :
    (∃ msg, validateQuery q = .error (.inputValidationError msg)) ↔
      (q = [] ∨ (∀ c ∈ q, pyIsSpace c = true) ∨ q.length > 1000) := by
  unfold validateQuery
  by_cases h1 : (q.isEmpty || (pyStrip q).isEmpty) = true
  · rw [if_pos h1]
    rcases Bool.or_eq_true .. |>.mp h1 with h | h
    · exact ⟨fun _ => Or.inl (List.isEmpty_iff.mp h), fun _ => ⟨_, rfl⟩⟩
    · exact ⟨fun _ => Or.inr (Or.inl ((pyStrip_eq_nil_iff q).mp (List.isEmpty_iff.mp h))),
        fun _ => ⟨_, rfl⟩⟩
  · rw [if_neg h1]
    have h1' : ¬q.isEmpty = true ∧ ¬(pyStrip q).isEmpty = true := by
      constructor <;> · intro hh; exact h1 (by simp [hh])
    by_cases h2 : q.length > 1000
    · rw [if_pos h2]
      exact ⟨fun _ => Or.inr (Or.inr h2), fun _ => ⟨_, rfl⟩⟩
    · rw [if_neg h2]
      constructor
      · rintro ⟨msg, hmsg⟩
        exact absurd hmsg (by simp)
      · rintro (h | h | h)
        · exact absurd (List.isEmpty_iff.mpr h) h1'.1
        · exact absurd (List.isEmpty_iff.mpr ((pyStrip_eq_nil_iff q).mpr h)) h1'.2
        · exact absurd h h2

/-- Characterisation of the queries _validate_query accepts. -/
lemma validateQuery_ok_iff (q : List Char) :
    validateQuery q = .ok () ↔
      ¬(q = [] ∨ (∀ c ∈ q, pyIsSpace c = true) ∨ q.length > 1000) := by
  rw [← validateQuery_error_iff]
  unfold validateQuery
  by_cases h1 : (q.isEmpty || (pyStrip q).isEmpty) = true
  · rw [if_pos h1]; simp
  · rw [if_neg h1]
    by_cases h2 : q.length > 1000
    · rw [if_pos h2]; simp
    · rw [if_neg h2]; simp

/-- The shared status / transport handling never produces a validation
error. -/
lemma handleTransport_ne_validation (t : TransportResult) (msg : String) :
    handleTransport t ≠ .error (.inputValidationError msg) := by
  cases t with
  | response s lines =>
      show handleResponse s lines ≠ _
      unfold handleResponse
      split_ifs <;> simp
  | timeoutError => simp [handleTransport]
  | connectionError => simp [handleTransport]
  | requestError cause => simp [handleTransport]

/-- A validation failure always carries an InputValidationError. -/
lemma validateQuery_error_shape (q : List Char) (e : MistralError)
    (h : validateQuery q = .error e) : ∃ msg, e = .inputValidationError msg := by
  unfold validateQuery at h
  split_ifs at h <;> simp_all <;> exact ⟨_, h.symm⟩

/-- The boolean emptiness test of __post_init__ and _validate_query, read as
a proposition. -/
lemma emptyOrWs_iff (s : String) :
    (s.data.isEmpty || (pyStrip s.data).isEmpty) = true ↔
      (s.data = [] ∨ ∀ c ∈ s.data, pyIsSpace c = true) := by
  rw [Bool.or_eq_true, List.isEmpty_iff, List.isEmpty_iff, pyStrip_eq_nil_iff]

/-- Nat.digitChar maps a digit below ten to a decimal digit character. -/
lemma digitChar_isDigit (d : Nat) (hd : d < 10) :
    (Nat.digitChar d).isDigit = true := by
  interval_cases d <;> decide

/-- Every character produced by natToDigitsRev is a decimal digit. -/
lemma natToDigitsRev_digits (n : Nat) :
    ∀ c ∈ natToDigitsRev n, c.isDigit = true := by
  induction n using Nat.strong_induction_on with
  | _ n ih =>
    rw [natToDigitsRev]
    split_ifs with h
    · intro c hc
      rw [List.mem_singleton] at hc
      subst hc
      exact digitChar_isDigit n h
    · intro c hc
      rcases List.mem_cons.mp hc with hc | hc
      · subst hc
        exact digitChar_isDigit (n % 10) (Nat.mod_lt _ (by omega))
      · exact ih (n / 10) (Nat.div_lt_self (by omega) (by omega)) c hc

/-- One digit for numbers below ten. -/
lemma natToDigitsRev_length1 (n : Nat) (h : n < 10) :
    (natToDigitsRev n).length = 1 := by
  rw [natToDigitsRev, if_pos h]
  rfl

/-- Two digits for numbers in [10, 100). -/
lemma natToDigitsRev_length2 (n : Nat) (h1 : 10 ≤ n) (h2 : n < 100) :
    (natToDigitsRev n).length = 2 := by
  rw [natToDigitsRev, if_neg (by omega)]
  simp [natToDigitsRev_length1 (n / 10) (by omega)]

/-- Three digits for numbers in [100, 1000). -/
lemma natToDigitsRev_length3 (n : Nat) (h1 : 100 ≤ n) (h2 : n < 1000) :
    (natToDigitsRev n).length = 3 := by
  rw [natToDigitsRev, if_neg (by omega)]
  simp [natToDigitsRev_length2 (n / 10) (by omega) (by omega)]

/-- Four digits for numbers in [1000, 10000). -/
lemma natToDigitsRev_length4 (n : Nat) (h1 : 1000 ≤ n) (h2 : n < 10000) :
    (natToDigitsRev n).length = 4 := by
  rw [natToDigitsRev, if_neg (by omega)]
  simp [natToDigitsRev_length3 (n / 10) (by omega) (by omega)]

/-- Explicit elements of a two-element list. -/
lemma exists_len2 (l : List Char) (h : l.length = 2) : ∃ a b, l = [a, b] := by
  rcases l with _ | ⟨a, l⟩
  · simp at h
  rcases l with _ | ⟨b, l⟩
  · simp at h
  rcases l with _ | ⟨c, l⟩
  · exact ⟨a, b, rfl⟩
  · simp only [List.length_cons] at h
    omega

/-- Explicit elements of a four-element list. -/
lemma exists_len4 (l : List Char) (h : l.length = 4) :
    ∃ a b c d, l = [a, b, c, d] := by
  rcases l with _ | ⟨a, l⟩
  · simp at h
  rcases l with _ | ⟨b, l⟩
  · simp at h
  rcases l with _ | ⟨c, l⟩
  · simp at h
  rcases l with _ | ⟨d, l⟩
  · simp at h
  rcases l with _ | ⟨e, l⟩
  · exact ⟨a, b, c, d, rfl⟩
  · simp only [List.length_cons] at h
    omega

/-- A year in [1000, 10000) renders as four decimal digit characters. -/
lemma natToDecimal_shape4 (n : Nat) (h1 : 1000 ≤ n) (h2 : n < 10000) :
    ∃ a b c d : Char, (natToDecimal n).data = [a, b, c, d] ∧
      a.isDigit = true ∧ b.isDigit = true ∧ c.isDigit = true ∧ d.isDigit = true := by
  have hlen : (natToDigitsRev n).length = 4 := natToDigitsRev_length4 n h1 h2
  have hdig := natToDigitsRev_digits n
  obtain ⟨a, b, c, d, habcd⟩ := exists_len4 _ hlen
  refine ⟨d, c, b, a, ?_, ?_, ?_, ?_, ?_⟩
  · unfold natToDecimal
    rw [habcd]
    rfl
  · exact hdig d (by rw [habcd]; simp)
  · exact hdig c (by rw [habcd]; simp)
  · exact hdig b (by rw [habcd]; simp)
  · exact hdig a (by rw [habcd]; simp)

/-- The %m / %d conversion of a number below 100 gives two digit
characters. -/
lemma pad2_shape (m : Nat) (h : m < 100) :
    ∃ a b : Char, (pad2 m).data = [a, b] ∧ a.isDigit = true ∧ b.isDigit = true := by
  unfold pad2
  by_cases h10 : m < 10
  · rw [if_pos h10]
    have hrev : natToDigitsRev m = [Nat.digitChar m] := by
      rw [natToDigitsRev, if_pos h10]
    refine ⟨'0', Nat.digitChar m, ?_, by decide, digitChar_isDigit m h10⟩
    show ("0" ++ natToDecimal m).data = ['0', Nat.digitChar m]
    unfold natToDecimal
    rw [String.data_append, hrev]
    rfl
  · rw [if_neg h10]
    have hlen : (natToDigitsRev m).length = 2 :=
      natToDigitsRev_length2 m (by omega) h
    have hdig := natToDigitsRev_digits m
    obtain ⟨a, b, hab⟩ := exists_len2 _ hlen
    refine ⟨b, a, ?_, ?_, ?_⟩
    · unfold natToDecimal
      rw [hab]
      rfl
    · exact hdig b (by rw [hab]; simp)
    · exact hdig a (by rw [hab]; simp)

/-- For realistic call-time dates the %Y-%m-%d output has the YYYY-MM-DD
shape. -/
lemma formatCurrentDate_shape (d : Date) (h1 : 1000 ≤ d.year)
    (h2 : d.year < 10000) (h3 : d.month < 100) (h4 : d.day < 100) :
    dateShape (formatCurrentDate d).data = true := by
  obtain ⟨y1, y2, y3, y4, hy, hy1, hy2, hy3, hy4⟩ := natToDecimal_shape4 d.year h1 h2
  obtain ⟨m1, m2, hm, hm1, hm2⟩ := pad2_shape d.month h3
  obtain ⟨d1, d2, hd, hd1, hd2⟩ := pad2_shape d.day h4
  have hdata : (formatCurrentDate d).data
      = [y1, y2, y3, y4, '-', m1, m2, '-', d1, d2] := by
    unfold formatCurrentDate
    simp [String.data_append, hy, hm, hd]
  rw [hdata]
  simp [dateShape, hy1, hy2, hy3, hy4, hm1, hm2, hd1, hd2]

/-- The message identifier slot of the chat payload. -/
lemma chatPayload_messageId (cid mid q : String) (model : ModelType) :
    (chatPayload cid mid model q).lookup "messageId" = some (.str mid) := rfl

/-- The message identifier slot of the web-search payload. -/
lemma webSearchPayload_messageId (cid mid q : String) (today : Date) :
    (webSearchPayload cid mid q today).lookup "messageId" = some (.str mid) := rfl

/-- A generator of pairwise distinct strings, used to instantiate the UUID
model. -/
lemma replicateGen_injective :
    Function.Injective (fun k => String.mk (List.replicate k 'a')) := by
  intro a b h
  have h2 : List.replicate a 'a' = List.replicate b 'a' := congrArg String.data h
  have h3 := congrArg List.length h2
  simpa using h3

/-- Claim C1 (amended): decoding considers only lines that start with the
marker 0: and each such line contributes exactly the fragment of its
characters from index 3 up to but excluding the last character
(extractContent, the slice line[3:-1]); all other lines are discarded. -/
theorem claim_C1_decode (lines : List (List Char)) :
    decodeLines lines
      = ((lines.filter startsWithMarker).map extractContent).flatten :=
  decodeLines_spec lines

/-- Claim C1 counterexample: on the content line 0:"Hel" the code extracts
Hel (slice from index 3), not the fragment from index 2 that the claim
prescribes. -/
theorem claim_C1_counterexample :
    decodeLines ["0:\"Hel\"".data] ≠ specClaimedFragment "0:\"Hel\"".data := by
  decide

/-- Claim C2 (amended): on the mocked five-line stream whose third line
holds the literal two-character escape backslash-n, decoding and newline
removal yield the string Hello backslash n World, the escape preserved,
because newline removal deletes only actual newline characters; with an
actual newline character in that position the result is exactly
HelloWorld. -/
theorem claim_C2_decodeMock :
    String.mk (removeNewlines (decodeLines mockStreamEscaped)) = "Hello\\nWorld" ∧
    String.mk (removeNewlines (decodeLines mockStreamNewline)) = "HelloWorld" := by
  constructor <;> decide

/-- Claim C2 counterexample: the stream with the literal escape does not
decode to HelloWorld. -/
theorem claim_C2_counterexample :
    String.mk (removeNewlines (decodeLines mockStreamEscaped)) ≠ "HelloWorld" := by
  decide

/-- Claim C9: chat and web_search leave the client state (cookies, chat_id,
print_responses and the prepared headers) unchanged, whatever the query,
model, date or transport outcome, so the client stays valid and reusable
after a failed call. -/
theorem claim_C9_clientImmutable (client : ClientState) (q mid : String)
    (model : ModelType) (today : Date) (t : TransportResult) :
    (chat client q model mid t).2.2 = client ∧
    (web_search client q mid today t).2.2 = client := by
  cases h : validateQuery q.data with
  | error e => simp [chat, web_search, h]
  | ok u => simp [chat, web_search, h]

/-- Claim C10: a line that starts with the marker but has fewer than 4
characters contributes the empty fragment, and decoding any stream beginning
with such a line equals decoding the rest; the decoder is a total function,
so no out-of-range access can occur. -/
theorem claim_C10_shortMarkerLines (line : List Char) (rest : List (List Char))
    (h1 : startsWithMarker line = true) (h2 : line.length < 4) :
    extractContent line = [] ∧ decodeLines (line :: rest) = decodeLines rest := by
  have hc : extractContent line = [] := by
    unfold extractContent
    have h3 : line.drop 3 = [] := by
      apply List.eq_nil_of_length_eq_zero
      rw [List.length_drop]
      omega
    rw [h3]
    rfl
  refine ⟨hc, ?_⟩
  rw [decodeLines_spec, decodeLines_spec]
  simp [List.filter_cons, h1, hc]

/-- Claim C10 witness at the two-character line 0: itself. -/
theorem claim_C10_witness :
    extractContent ['0', ':'] = [] ∧
    decodeLines [['0', ':']] = decodeLines [] :=
  claim_C10_shortMarkerLines ['0', ':'] [] (by decide) (by decide)

/-- Claim C3: for a valid query, both chat and web_search map the response
status to an outcome in priority order: 401, 404 and 500 raise
AuthenticationError; 429 raises RateLimitError; any other non-200 raises
NetworkConnectionError with the status code rendered inside the message;
and 200 proceeds to stream decoding without raising. -/
theorem claim_C3_statusMapping (client : ClientState) (q mid : String)
    (model : ModelType) (today : Date) (lines : List (List Char)) (s : Nat)
    (hq : validateQuery q.data = .ok ()) :
    ((s = 401 ∨ s = 404 ∨ s = 500) →
      (chat client q model mid (.response s lines)).1
          = .error (.authenticationError authFailedMessage) ∧
      (web_search client q mid today (.response s lines)).1
          = .error (.authenticationError authFailedMessage)) ∧
    (s = 429 →
      (chat client q model mid (.response s lines)).1
          = .error (.rateLimitError rateLimitMessage) ∧
      (web_search client q mid today (.response s lines)).1
          = .error (.rateLimitError rateLimitMessage)) ∧
    (s ≠ 401 → s ≠ 404 → s ≠ 500 → s ≠ 429 → s ≠ 200 →
      (chat client q model mid (.response s lines)).1
          = .error (.networkConnectionError ("Unexpected error: " ++ natToDecimal s)) ∧
      (web_search client q mid today (.response s lines)).1
          = .error (.networkConnectionError ("Unexpected error: " ++ natToDecimal s)) ∧
      ∃ a b, ("Unexpected error: " ++ natToDecimal s).data
          = a ++ (natToDecimal s).data ++ b) ∧
    (s = 200 →
      (chat client q model mid (.response s lines)).1
          = .ok (String.mk (removeNewlines (decodeLines lines))) ∧
      (web_search client q mid today (.response s lines)).1
          = .ok (String.mk (removeNewlines (decodeLines lines)))) := by
  have hchat : (chat client q model mid (.response s lines)).1
      = handleResponse s lines := by
    simp [chat, hq, handleTransport]
  have hweb : (web_search client q mid today (.response s lines)).1
      = handleResponse s lines := by
    simp [web_search, hq, handleTransport]
  refine ⟨?_, ?_, ?_, ?_⟩
  · rintro (rfl | rfl | rfl) <;> exact ⟨by rw [hchat]; rfl, by rw [hweb]; rfl⟩
  · rintro rfl
    exact ⟨by rw [hchat]; rfl, by rw [hweb]; rfl⟩
  · intro h401 h404 h500 h429 h200
    have hr : handleResponse s lines
        = .error (.networkConnectionError ("Unexpected error: " ++ natToDecimal s)) := by
      unfold handleResponse
      rw [if_neg h401, if_neg h404, if_neg h500, if_neg h429, if_pos h200]
    refine ⟨by rw [hchat, hr], by rw [hweb, hr], "Unexpected error: ".data, [], ?_⟩
    rw [String.data_append]
    simp
  · rintro rfl
    exact ⟨by rw [hchat]; rfl, by rw [hweb]; rfl⟩

/-- Claim C3 witness: a valid query against status 503 yields the network
error carrying the code. -/
theorem claim_C3_witness :
    (chat sampleClient "hi" .LARGE_2 "m1" (.response 503 [])).1
        = .error (.networkConnectionError ("Unexpected error: " ++ natToDecimal 503)) :=
  ((claim_C3_statusMapping sampleClient "hi" "m1" .LARGE_2 sampleDate [] 503
      (by decide)).2.2.1
    (by decide) (by decide) (by decide) (by decide) (by decide)).1

/-- Claim C4: chat and web_search end with InputValidationError exactly when
the query is empty, all-whitespace, or longer than 1000 characters, and in
that case no network request is issued. -/
theorem claim_C4_queryValidation (client : ClientState) (q mid : String)
    (model : ModelType) (today : Date) (t : TransportResult) :
    ((∃ msg, (chat client q model mid t).1 = .error (.inputValidationError msg)) ↔
        (q.data = [] ∨ (∀ c ∈ q.data, pyIsSpace c = true) ∨ q.data.length > 1000)) ∧
    ((∃ msg, (web_search client q mid today t).1 = .error (.inputValidationError msg)) ↔
        (q.data = [] ∨ (∀ c ∈ q.data, pyIsSpace c = true) ∨ q.data.length > 1000)) ∧
    ((∃ msg, (chat client q model mid t).1 = .error (.inputValidationError msg)) →
        (chat client q model mid t).2.1 = []) ∧
    ((∃ msg, (web_search client q mid today t).1 = .error (.inputValidationError msg)) →
        (web_search client q mid today t).2.1 = []) := by
  cases h : validateQuery q.data with
  | error e =>
      obtain ⟨msg, rfl⟩ := validateQuery_error_shape q.data e h
      have hcond : q.data = [] ∨ (∀ c ∈ q.data, pyIsSpace c = true) ∨ q.data.length > 1000 :=
        (validateQuery_error_iff q.data).mp ⟨msg, h⟩
      refine ⟨?_, ?_, ?_, ?_⟩ <;> simp [chat, web_search, h] <;>
        simpa using hcond
  | ok u =>
      cases u
      have hcond := (validateQuery_ok_iff q.data).mp h
      refine ⟨?_, ?_, ?_, ?_⟩ <;>
        simp [chat, web_search, h, handleTransport_ne_validation] <;>
        simpa using hcond

/-- Claim C4 witness: the empty query is rejected without any request being
issued. -/
theorem claim_C4_witness :
    (chat sampleClient "" .LARGE_2 "m1" .timeoutError).2.1 = [] :=
  (claim_C4_queryValidation sampleClient "" "m1" .LARGE_2 sampleDate
      .timeoutError).2.2.1
    ⟨"Query cannot be empty", by decide⟩

/-- Claim C5: the web-search payload always carries the feature flag list
beta-websearch, the call-time date under clientPromptData in YYYY-MM-DD
shape, and the fixed pandragon model; the chat payload carries neither a
feature list nor a date field and uses the caller-selected model, whose
default is LARGE_2. -/
theorem claim_C5_payloadContents (chatId mid mid2 q q2 : String)
    (model : ModelType) (today : Date)
    (h1 : 1000 ≤ today.year) (h2 : today.year < 10000)
    (h3 : today.month < 100) (h4 : today.day < 100) :
    (webSearchPayload chatId mid q today).lookup "features"
        = some (.strList ["beta-websearch"]) ∧
    (webSearchPayload chatId mid q today).lookup "clientPromptData"
        = some (.obj [("currentDate", formatCurrentDate today)]) ∧
    dateShape (formatCurrentDate today).data = true ∧
    (webSearchPayload chatId mid q today).lookup "model"
        = some (.str "pandragon") ∧
    (chatPayload chatId mid2 model q2).lookup "features" = none ∧
    (chatPayload chatId mid2 model q2).lookup "clientPromptData" = none ∧
    (chatPayload chatId mid2 model q2).lookup "model" = some (.str model.value) ∧
    defaultChatModel = ModelType.LARGE_2 :=
  ⟨rfl, rfl, formatCurrentDate_shape today h1 h2 h3 h4, rfl, rfl, rfl, rfl, rfl⟩

/-- Claim C5 witness at a concrete date. -/
theorem claim_C5_witness :
    dateShape (formatCurrentDate sampleDate).data = true :=
  (claim_C5_payloadContents "chat-1" "m1" "m2" "q" "q2" ModelType.LARGE_2
      sampleDate (by decide) (by decide) (by decide) (by decide)).2.2.1

/-- Claim C6: each call places the freshly drawn identifier in the messageId
slot of its payload, and with the UUID generator modelled as injective,
distinct draws give distinct message identifiers across any two calls, in
whichever combination of chat and web_search. -/
theorem claim_C6_freshMessageId (gen : Nat → String)
    (hinj : Function.Injective gen) (n m : Nat) (hnm : n ≠ m)
    (chatId q q2 : String) (model : ModelType) (today : Date) :
    (chatPayload chatId (gen n) model q).lookup "messageId"
        = some (.str (gen n)) ∧
    (webSearchPayload chatId (gen n) q today).lookup "messageId"
        = some (.str (gen n)) ∧
    (chatPayload chatId (gen n) model q).lookup "messageId"
        ≠ (chatPayload chatId (gen m) model q2).lookup "messageId" ∧
    (chatPayload chatId (gen n) model q).lookup "messageId"
        ≠ (webSearchPayload chatId (gen m) q2 today).lookup "messageId" ∧
    (webSearchPayload chatId (gen n) q today).lookup "messageId"
        ≠ (webSearchPayload chatId (gen m) q2 today).lookup "messageId" := by
  have hne : gen n ≠ gen m := fun h => hnm (hinj h)
  refine ⟨chatPayload_messageId .., webSearchPayload_messageId .., ?_, ?_, ?_⟩
  · rw [chatPayload_messageId, chatPayload_messageId]
    simp [hne]
  · rw [chatPayload_messageId, webSearchPayload_messageId]
    simp [hne]
  · rw [webSearchPayload_messageId, webSearchPayload_messageId]
    simp [hne]

/-- Claim C6 witness with an injective generator and draws 0 and 1. -/
theorem claim_C6_witness :
    (chatPayload "chat-1" (String.mk (List.replicate 0 'a'))
        ModelType.LARGE_2 "q").lookup "messageId"
      ≠ (chatPayload "chat-1" (String.mk (List.replicate 1 'a'))
        ModelType.LARGE_2 "q2").lookup "messageId" :=
  (claim_C6_freshMessageId (fun k => String.mk (List.replicate k 'a'))
      replicateGen_injective 0 1 (by decide) "chat-1" "q" "q2"
      ModelType.LARGE_2 sampleDate).2.2.1

/-- Claim C7: every transport-level failure is normalised to
NetworkConnectionError, with a cause-specific message: timeout and
connection refusal get distinct fixed messages and any other transport
exception gets a generic message embedding the cause. -/
theorem claim_C7_transportFailures (client : ClientState) (q mid : String)
    (model : ModelType) (today : Date) (cause : String)
    (hq : validateQuery q.data = .ok ()) :
    (chat client q model mid .timeoutError).1
        = .error (.networkConnectionError "Request timed out") ∧
    (chat client q model mid .connectionError).1
        = .error (.networkConnectionError "Could not connect to Mistral AI") ∧
    (chat client q model mid (.requestError cause)).1
        = .error (.networkConnectionError ("Network error: " ++ cause)) ∧
    (web_search client q mid today .timeoutError).1
        = .error (.networkConnectionError "Request timed out") ∧
    (web_search client q mid today .connectionError).1
        = .error (.networkConnectionError "Could not connect to Mistral AI") ∧
    (web_search client q mid today (.requestError cause)).1
        = .error (.networkConnectionError ("Network error: " ++ cause)) ∧
    ("Request timed out" : String) ≠ "Could not connect to Mistral AI" := by
  refine ⟨?_, ?_, ?_, ?_, ?_, ?_, by decide⟩ <;>
    simp [chat, web_search, hq, handleTransport]

/-- Claim C7 witness: a timeout during a valid chat call. -/
theorem claim_C7_witness :
    (chat sampleClient "hi" .LARGE_2 "m1" .timeoutError).1
        = .error (.networkConnectionError "Request timed out") :=
  (claim_C7_transportFailures sampleClient "hi" "m1" .LARGE_2 sampleDate
      "boom" (by decide)).1

/-- Claim C8: construction rejects an empty or all-whitespace cookie string
with the cookie message (checked before the chat id), then an empty or
all-whitespace chat id with the chat-id message, and succeeds on any other
pair, preparing the Cookie header; the constructor involves no transport. -/
theorem claim_C8_construction (cookies chat_id : String) (pr : Bool) :
    ((cookies.data = [] ∨ ∀ c ∈ cookies.data, pyIsSpace c = true) →
      mkClient cookies chat_id pr
        = .error (.inputValidationError "Cookies cannot be empty")) ∧
    (¬(cookies.data = [] ∨ ∀ c ∈ cookies.data, pyIsSpace c = true) →
      (chat_id.data = [] ∨ ∀ c ∈ chat_id.data, pyIsSpace c = true) →
      mkClient cookies chat_id pr
        = .error (.inputValidationError "Chat ID cannot be empty")) ∧
    (¬(cookies.data = [] ∨ ∀ c ∈ cookies.data, pyIsSpace c = true) →
      ¬(chat_id.data = [] ∨ ∀ c ∈ chat_id.data, pyIsSpace c = true) →
      mkClient cookies chat_id pr
        = .ok { cookies := cookies, chat_id := chat_id,
                print_responses := pr,
                headers := [("Cookie", cookies)] }) := by
  refine ⟨fun h => ?_, fun h1 h2 => ?_, fun h1 h2 => ?_⟩
  · unfold mkClient
    rw [if_pos ((emptyOrWs_iff cookies).mpr h)]
  · unfold mkClient
    rw [if_neg (fun hh => h1 ((emptyOrWs_iff cookies).mp hh)),
      if_pos ((emptyOrWs_iff chat_id).mpr h2)]
  · unfold mkClient
    rw [if_neg (fun hh => h1 ((emptyOrWs_iff cookies).mp hh)),
      if_neg (fun hh => h2 ((emptyOrWs_iff chat_id).mp hh))]

/-- Claim C8 witness: the empty cookie string is rejected first even with a
valid chat id. -/
theorem claim_C8_witness :
    mkClient "" "chat-1" true
      = .error (.inputValidationError "Cookies cannot be empty") :=
  (claim_C8_construction "" "chat-1" true).1 (Or.inl rfl)

end MistralAI
